import Mathlib

/-!
Verification of the request-builder and response-normalization core of a
PostgREST client (`postgrest/_async/request_builder.py`).

The execution pipeline of `AsyncQueryRequestBuilder.execute`,
`AsyncMaybeSingleRequestBuilder.execute` and `AsyncQueryFactory` is embedded
as pure functions from the HTTP response the session returned to an
`Except`-value: a raised Python exception becomes `Except.error`, a returned
`APIResponse` becomes `Except.ok`.  Parts of the repository that the visible
source imports but that are not part of the sample (`base_request_builder`,
`exceptions`) are modelled from the specification and carry a doc comment
saying so.
-/

namespace PostgrestPy

/-- JSON values, as produced by parsing an HTTP response body. -/
inductive Json where
  | null
  | bool (b : Bool)
  | num (n : Int)
  | str (s : String)
  | arr (elems : List Json)
  | obj (fields : List (String × Json))

/-- Field lookup on a JSON object (Python `dict.get(key)`); `none` on
non-objects and on absent keys. -/
def Json.get? (j : Json) (k : String) : Option Json :=
  match j with
  | .obj fields => fields.lookup k
  | _ => none

/-- Lowercase a string character by character, as Python `str.lower` does for
ASCII and as httpx does for header-key folding. -/
def strToLower (s : String) : String := ⟨s.data.map Char.toLower⟩

/-- Test whether the first char list occurs at the start of the second. -/
def beginsWith : List Char → List Char → Bool
  | [], _ => true
  | _ :: _, [] => false
  | p :: ps, c :: cs => p == c && beginsWith ps cs

/-- Substring containment on char lists. -/
def containsSub (pat : List Char) : List Char → Bool
  | [] => beginsWith pat []
  | c :: rest => beginsWith pat (c :: rest) || containsSub pat rest

/-- Python substring test `pat in s`. -/
def strContains (s pat : String) : Bool := containsSub pat.data s.data

/-- Header mapping with case-insensitive keys, the view of an httpx
`Headers` object that the visible code uses. -/
abbrev HeadersL := List (String × String)

/-- Query parameters, a multi-valued string mapping kept in insertion order. -/
abbrev ParamsL := List (String × String)

/-- The httpx `headers.get(k)` operation with case-insensitive key matching;
`k in headers` holds exactly when this is not `none`. -/
def headerGet (hs : HeadersL) (k : String) : Option String :=
  (hs.find? (fun p => strToLower p.1 == strToLower k)).map (fun p => p.2)

/-- Modelled from the spec: the typed error of `exceptions.APIError`, which is
not under `src/`; section 4.5 and section 3 describe it as carrying optional
`message`, `code`, `details`, `hint` string fields. -/
structure APIError where
  message : Option String
  code : Option String
  details : Option String
  hint : Option String

/-- Extract an optional string field from a JSON error body; a missing field
stays absent. -/
def strField (j : Json) (k : String) : Option String :=
  match j.get? k with
  | some (.str s) => some s
  | _ => none

/-- Modelled from the spec: `APIError` construction from the parsed error
body, which lives in `exceptions`, not under `src/`.  Section 4.5:
"constructed exclusively from a JSON object with optional `message`, `code`,
`details`, `hint` string fields; missing fields are left absent, never
defaulted to empty string". -/
def APIError.fromJson (j : Json) : APIError :=
  { message := strField j "message"
    code := strField j "code"
    details := strField j "details"
    hint := strField j "hint" }

/-- The relevant view of an httpx `Response`: the status code, the result of
parsing the body as JSON (`none` when the body is not valid JSON), the raw
body text, and the `Content-Range` header when present. -/
structure HTTPResponse where
  status_code : Nat
  jsonBody : Option Json
  rawBody : String
  contentRange : Option String

/-- Exceptions that can escape `execute`, as a closed sum: the repository's
typed `APIError`, pydantic's `ValidationError`, the JSON decoder's error for
an unparseable body, and Python's `UnboundLocalError` for reading a local
variable that was never assigned. -/
inductive Exc where
  | apiError (e : APIError)
  | validationError
  | jsonDecodeError
  | unboundLocalError

/-- The httpx `Response.json()` call: returns the parsed body, or raises the
JSON decoder's error when the body is not valid JSON. -/
def HTTPResponse.json (r : HTTPResponse) : Except Exc Json :=
  match r.jsonBody with
  | some j => Except.ok j
  | none => Except.error Exc.jsonDecodeError

/-- Split a char list at every occurrence of `sep`. -/
def splitChar (sep : Char) : List Char → List (List Char)
  | [] => [[]]
  | c :: cs =>
    let rest := splitChar sep cs
    if c == sep then [] :: rest
    else
      match rest with
      | [] => [[c]]
      | g :: gs => (c :: g) :: gs

/-- Parse a decimal natural number; `none` on empty or non-digit input. -/
def parseNat (s : String) : Option Nat :=
  if s.data.isEmpty then none
  else s.data.foldl
    (fun acc c =>
      match acc with
      | none => none
      | some n => if c.isDigit then some (n * 10 + (c.toNat - 48)) else none)
    (some 0)

/-- Modelled from the spec: count extraction from a `Content-Range` header of
the form `start-end/total`, which lives in `base_request_builder`, not under
`src/`.  Sections 4.3 and 4.4: a total of "*" means unknown, so the count is
absent; a malformed or missing header also yields an absent count, not zero. -/
def count_from_content_range (h : String) : Option Nat :=
  match (splitChar '/' h.data).map (fun g => String.mk g) with
  | [_, total] => if total == "*" then none else parseNat total
  | _ => none

/-- The uniform result envelope (section 3, ResponseEnvelope): success data,
optional row count, optional error. -/
structure APIResponse where
  data : Json
  count : Option Nat
  error : Option APIError

/-- Modelled from the spec: `APIResponse.from_http_request_response` lives in
`base_request_builder`, not under `src/`.  Section 4.4: it parses the body as
JSON — a parse failure propagates as an ErrorDetail built from the unparsed
raw response — and extracts the count from the `Content-Range` header. -/
def APIResponse.from_http_request_response (r : HTTPResponse) : Except Exc APIResponse :=
  match r.jsonBody with
  | none => Except.error (Exc.apiError
      { message := some r.rawBody, code := none, details := none, hint := none })
  | some j => Except.ok
      { data := j
        count := match r.contentRange with
          | some h => count_from_content_range h
          | none => none
        error := none }

/-- Modelled from the spec: `APIResponse.from_dict` lives in
`base_request_builder`, not under `src/`; it builds the envelope directly
from the given field values. -/
def APIResponse.from_dict (d : Json) (error : Option APIError) (count : Option Nat) :
    APIResponse :=
  { data := d, count := count, error := error }

/-- Embeds `AsyncQueryRequestBuilder.execute` (request_builder.py lines
59-76), applied to the response the session returned: a status code in
[200, 299] builds an `APIResponse` from the response, any other status raises
`APIError(r.json())`; a pydantic `ValidationError` escaping either branch is
converted to `APIError(r.json())`. -/
def query_execute (r : HTTPResponse) : Except Exc APIResponse :=
  let attempt : Except Exc APIResponse :=
    if 200 ≤ r.status_code ∧ r.status_code ≤ 299 then
      APIResponse.from_http_request_response r
    else
      match r.json with
      | Except.ok j => Except.error (Exc.apiError (APIError.fromJson j))
      | Except.error exc => Except.error exc
  match attempt with
  | Except.error Exc.validationError =>
      (match r.json with
       | Except.ok j => Except.error (Exc.apiError (APIError.fromJson j))
       | Except.error exc => Except.error exc)
  | other => other

/-- Embeds the guard `e.details and "Results contain 0 rows" in e.details`
(request_builder.py line 84), including Python string truthiness: a missing
or empty `details` field never matches. -/
def zero_rows_signal (details : Option String) : Bool :=
  match details with
  | none => false
  | some d => (!(d == "")) && strContains d "Results contain 0 rows"

/-- Embeds `AsyncMaybeSingleRequestBuilder.execute` (request_builder.py lines
80-92): the inherited execute runs inside `try`; an `APIError` whose
`details` carry the zero-rows signal is replaced by the empty success
envelope; any other `APIError` is caught, the handler falls through, and the
final `return r` raises `UnboundLocalError` because `r` was never assigned;
exceptions that are not `APIError` propagate unchanged. -/
def maybe_single_execute (r : HTTPResponse) : Except Exc APIResponse :=
  match query_execute r with
  | Except.ok resp => Except.ok resp
  | Except.error (Exc.apiError e) =>
      if zero_rows_signal e.details then
        Except.ok (APIResponse.from_dict Json.null none (some 0))
      else
        Except.error Exc.unboundLocalError
  | Except.error exc => Except.error exc

/-- Embeds `AsyncQueryFactory.is_single` (request_builder.py lines 112-114). -/
def is_single (hs : HeadersL) : Bool :=
  headerGet hs "Accept" == some "application/vnd.pgrst.object+json"

/-- Embeds the marker condition of `AsyncQueryFactory.is_maybe_single`
(request_builder.py lines 118-121): the `x-maybeSingle` header is present and
its lowercased value is "true". -/
def maybe_single_marker (hs : HeadersL) : Bool :=
  match headerGet hs "x-maybeSingle" with
  | some v => strToLower v == "true"
  | none => false

/-- Embeds `AsyncQueryFactory.is_maybe_single` (request_builder.py lines
116-122). -/
def is_maybe_single (hs : HeadersL) : Bool :=
  is_single hs && maybe_single_marker hs

/-- Strategy enumeration of the spec (sections 4.3 and 9): plain row set,
single row, or possibly-absent single row. -/
inductive Strategy where
  | plain
  | single
  | maybeSingle
deriving DecidableEq, BEq

/-- Names the strategy realised by the factory's `request_builder` dispatch
(request_builder.py lines 124-143) for a given header state: the code
branches only on `is_maybe_single`; single-row mode without the marker is
served by the plain query builder. -/
def classify (hs : HeadersL) : Strategy :=
  if is_maybe_single hs then Strategy.maybeSingle
  else if is_single hs then Strategy.single
  else Strategy.plain

/-- Embeds `AsyncQueryFactory.execute` (request_builder.py lines 145-146):
dispatch through `request_builder`, then run the chosen builder's execute on
the response the session returned. -/
def factory_execute (hs : HeadersL) (r : HTTPResponse) : Except Exc APIResponse :=
  if is_maybe_single hs then maybe_single_execute r else query_execute r

/-- Pending request state carried by a builder (section 3, PendingRequest;
`AsyncQueryRequestBuilder.__init__`, request_builder.py lines 42-57). -/
structure PendingRequest where
  path : String
  http_method : String
  headers : HeadersL
  params : ParamsL
  body : Option Json

/-- Argument tuple that `execute` passes to `session.request`
(request_builder.py lines 60-66): method, path, json, params and headers are
all taken from the builder unchanged. -/
def session_request_args (b : PendingRequest) :
    String × String × Option Json × ParamsL × HeadersL :=
  (b.http_method, b.path, b.body, b.params, b.headers)

/-- Header set handed to the HTTP client by `execute` (request_builder.py
line 65). -/
def sent_headers (b : PendingRequest) : HeadersL := b.headers

/-- Count modes (section 3, CountMode). -/
inductive CountMethod where
  | exact
  | planned
  | estimated

/-- Spelling of a count mode inside the `Prefer` header. -/
def CountMethod.toStr : CountMethod → String
  | .exact => "exact"
  | .planned => "planned"
  | .estimated => "estimated"

/-- Return modes (section 3, ReturnMode). -/
inductive ReturnMethod where
  | minimal
  | representation

/-- Spelling of a return mode inside the `Prefer` header. -/
def ReturnMethod.toStr : ReturnMethod → String
  | .minimal => "minimal"
  | .representation => "representation"

/-- Join strings with comma separators, as the `Prefer` tokens are joined. -/
def joinComma : List String → String
  | [] => ""
  | [t] => t
  | t :: ts => t ++ "," ++ joinComma ts

/-- Prefer tokens in the spec's stable order (section 4.1): count token
before return token before resolution token. -/
def preferTokens (count : Option CountMethod) (returning : ReturnMethod)
    (resolution : Option String) : List String :=
  (match count with
   | some c => ["count=" ++ c.toStr]
   | none => []) ++
  ["return=" ++ returning.toStr] ++
  (match resolution with
   | some tok => ["resolution=" ++ tok]
   | none => [])

/-- Modelled from the spec: `pre_delete` lives in `base_request_builder`, not
under `src/`.  Section 4.1: a pure stateless function returning a fresh
tuple with method DELETE, no body, and a `Prefer` header of the comma-joined
tokens. -/
def pre_delete (count : Option CountMethod) (returning : ReturnMethod) :
    String × ParamsL × HeadersL × Option Json :=
  ("DELETE", [], [("Prefer", joinComma (preferTokens count returning none))], none)

/-- Modelled from the spec: `pre_insert` lives in `base_request_builder`, not
under `src/`.  Sections 4.1 and 3: a pure stateless function returning a
fresh tuple with method POST, body = rows, and `Prefer` combining an optional
`count=<mode>` token, `return=<returning>`, and `resolution=merge-duplicates`
exactly when `upsert` is set. -/
def pre_insert (rows : Json) (count : Option CountMethod) (returning : ReturnMethod)
    (upsert : Bool) : String × ParamsL × HeadersL × Option Json :=
  ("POST", [],
   [("Prefer", joinComma (preferTokens count returning
       (if upsert then some "merge-duplicates" else none)))],
   some rows)

/-- Embeds `AsyncRequestBuilder.delete` (request_builder.py lines 283-303):
the pending request is built from the tuple `pre_delete` returns. -/
def delete (path : String) (count : Option CountMethod) (returning : ReturnMethod) :
    PendingRequest :=
  match pre_delete count returning with
  | (m, p, h, b) => { path := path, http_method := m, headers := h, params := p, body := b }

/-- Embeds `AsyncRequestBuilder.insert` (request_builder.py lines 206-230):
the pending request is built from the fresh tuple `pre_insert` returns;
nothing is shared with any earlier call. -/
def insert (path : String) (rows : Json) (count : Option CountMethod)
    (returning : ReturnMethod) (upsert : Bool) : PendingRequest :=
  match pre_insert rows count returning upsert with
  | (m, p, h, b) => { path := path, http_method := m, headers := h, params := p, body := b }

/-- Header state set by a `single()` followed by `maybeSingle()` chain
(section 4.2). -/
def maybeHeaders : HeadersL :=
  [("Accept", "application/vnd.pgrst.object+json"), ("x-maybeSingle", "true")]

/-- Header state of single-row mode without the maybe-single marker. -/
def singleHeaders : HeadersL :=
  [("Accept", "application/vnd.pgrst.object+json")]

/-- Zero-rows error response as PostgREST reports it for a single-row query. -/
def respZeroRows : HTTPResponse :=
  { status_code := 406
    jsonBody := some (Json.obj
      [("message", Json.str "JSON object requested, multiple (or no) rows returned"),
       ("details", Json.str "Results contain 0 rows")])
    rawBody := ""
    contentRange := none }

/-- An API error response that does not carry the zero-rows signal. -/
def respForbidden : HTTPResponse :=
  { status_code := 403
    jsonBody := some (Json.obj
      [("message", Json.str "permission denied"), ("details", Json.str "forbidden")])
    rawBody := ""
    contentRange := none }

/-- A 404 whose JSON body carries only a message. -/
def respNotFound : HTTPResponse :=
  { status_code := 404
    jsonBody := some (Json.obj [("message", Json.str "not found")])
    rawBody := ""
    contentRange := none }

/-- A 2xx response whose body is not valid JSON. -/
def respOkMalformed : HTTPResponse :=
  { status_code := 200, jsonBody := none, rawBody := "oops", contentRange := none }

/-- A non-2xx response whose body is not valid JSON. -/
def respErrMalformed : HTTPResponse :=
  { status_code := 500, jsonBody := none, rawBody := "internal error page",
    contentRange := none }

/-- A successful response at the upper edge of the 2xx range. -/
def respEdge299 : HTTPResponse :=
  { status_code := 299, jsonBody := some (Json.arr []), rawBody := "[]",
    contentRange := none }

/-- A redirect response, just outside the 2xx range. -/
def respRedirect : HTTPResponse :=
  { status_code := 300, jsonBody := some (Json.obj [("message", Json.str "redirect")]),
    rawBody := "", contentRange := none }

/-- A maybe-single pending request carrying the marker header. -/
def maybeReq : PendingRequest :=
  { path := "countries", http_method := "GET", headers := maybeHeaders,
    params := [], body := none }

/-- Claim C1: in maybe-single mode, an underlying execution failure whose
`APIError` details contain the substring "Results contain 0 rows" is replaced
by a successful empty envelope with null data, no error, and count 0. -/
theorem maybe_single_zero_rows (hs : HeadersL) (r : HTTPResponse) (e : APIError)
    (d : String)
    (hm : is_maybe_single hs = true)
    (hq : query_execute r = Except.error (Exc.apiError e))
    (hd : e.details = some d)
    (hsub : strContains d "Results contain 0 rows" = true) :
    factory_execute hs r =
      Except.ok { data := Json.null, count := some 0, error := none } := by
  have hne : (d == "") = false := by
    rcases Bool.eq_false_or_eq_true (d == "") with h | h
    · exfalso
      have hd0 : d = "" := by simpa using h
      subst hd0
      exact absurd hsub (by decide)
    · exact h
  have hsig : zero_rows_signal e.details = true := by
    rw [hd]
    unfold zero_rows_signal
    simp [hne, hsub]
  simp [factory_execute, hm, maybe_single_execute, hq, hsig, APIResponse.from_dict]

/-- Claim C1 witness: the concrete zero-rows response under the maybe-single
header state yields the empty success envelope. -/
theorem maybe_single_zero_rows_witness :
    factory_execute maybeHeaders respZeroRows =
      Except.ok { data := Json.null, count := some 0, error := none } :=
  maybe_single_zero_rows maybeHeaders respZeroRows
    { message := some "JSON object requested, multiple (or no) rows returned",
      code := none, details := some "Results contain 0 rows", hint := none }
    "Results contain 0 rows" (by decide) rfl rfl (by decide)

/-- Claim C2 (code bug): a maybe-single execution whose underlying `APIError`
does not carry the zero-rows signal does not propagate that error; the except
handler falls through and the final `return r` raises `UnboundLocalError`,
so the original `APIError` is swallowed. -/
theorem maybe_single_swallowed_error :
    query_execute respForbidden =
      Except.error (Exc.apiError
        { message := some "permission denied", code := none,
          details := some "forbidden", hint := none })
    ∧ factory_execute maybeHeaders respForbidden =
        Except.error Exc.unboundLocalError := ⟨rfl, rfl⟩

/-- Claim C3: with a JSON-parseable body, execute succeeds exactly on status
codes in the inclusive range [200, 299], returning the envelope built from
the response, and raises the `APIError` built from the JSON body on every
other status. -/
theorem execute_status_classification (r : HTTPResponse) (j : Json)
    (hb : r.jsonBody = some j) :
    (200 ≤ r.status_code ∧ r.status_code ≤ 299 →
      query_execute r = Except.ok
        { data := j
          count := match r.contentRange with
            | some h => count_from_content_range h
            | none => none
          error := none })
    ∧ (¬(200 ≤ r.status_code ∧ r.status_code ≤ 299) →
      query_execute r = Except.error (Exc.apiError (APIError.fromJson j))) := by
  constructor
  · intro h
    simp [query_execute, h, APIResponse.from_http_request_response, hb]
  · intro h
    simp [query_execute, h, HTTPResponse.json, hb]

/-- Claim C3 witness: status 299 succeeds with the parsed body, status 300
raises the error built from the body. -/
theorem execute_status_classification_witness :
    query_execute respEdge299 =
      Except.ok { data := Json.arr [], count := none, error := none }
    ∧ query_execute respRedirect =
      Except.error (Exc.apiError
        { message := some "redirect", code := none, details := none, hint := none }) :=
  ⟨(execute_status_classification respEdge299 (Json.arr []) rfl).1 (by decide),
   (execute_status_classification respRedirect
      (Json.obj [("message", Json.str "redirect")]) rfl).2 (by decide)⟩

/-- Claim C4: single-row mode holds exactly when the Accept header equals the
pgrst object media type, maybe-single mode is single-row mode plus the marker
condition, and every header state falls under exactly one of the Plain,
Single and MaybeSingle strategies, which is the one `classify` names. -/
theorem strategy_classification (hs : HeadersL) :
    (is_single hs = (headerGet hs "Accept" == some "application/vnd.pgrst.object+json"))
    ∧ (is_maybe_single hs = (is_single hs && maybe_single_marker hs))
    ∧ ((!(is_single hs)).toNat + (is_single hs && !(is_maybe_single hs)).toNat
        + (is_maybe_single hs).toNat = 1)
    ∧ ((classify hs == Strategy.maybeSingle) = is_maybe_single hs)
    ∧ ((classify hs == Strategy.single) = (is_single hs && !(is_maybe_single hs)))
    ∧ ((classify hs == Strategy.plain) = !(is_single hs)) := by
  refine ⟨rfl, rfl, ?_, ?_, ?_, ?_⟩ <;>
    (obtain h1 | h1 := Bool.eq_false_or_eq_true (is_single hs) <;>
     obtain h2 | h2 := Bool.eq_false_or_eq_true (maybe_single_marker hs) <;>
     simp only [classify, is_maybe_single, h1, h2] <;> decide)

/-- Claim C5 counterexample: a non-2xx response with an unparseable body makes
execute raise the JSON decoder's untyped error, not a typed `APIError`. -/
theorem malformed_error_body_counterexample :
    query_execute respErrMalformed = Except.error Exc.jsonDecodeError := rfl

/-- Claim C5 amended: for a 2xx response with an unparseable body, the
response builder surfaces a typed `APIError` preserving the raw body; for a
non-2xx response with an unparseable body the untyped JSON decode error
escapes, because the error path parses the body directly and only
`ValidationError` is converted to `APIError`. -/
theorem malformed_body_split (r : HTTPResponse) (hb : r.jsonBody = none) :
    (200 ≤ r.status_code ∧ r.status_code ≤ 299 →
      query_execute r = Except.error (Exc.apiError
        { message := some r.rawBody, code := none, details := none, hint := none }))
    ∧ (¬(200 ≤ r.status_code ∧ r.status_code ≤ 299) →
      query_execute r = Except.error Exc.jsonDecodeError) := by
  constructor
  · intro h
    simp [query_execute, h, APIResponse.from_http_request_response, hb]
  · intro h
    simp [query_execute, h, HTTPResponse.json, hb]

/-- Claim C5 amended witness: a malformed 200 body yields the typed error
carrying the raw body, a malformed 500 body leaks the decoder error. -/
theorem malformed_body_split_witness :
    query_execute respOkMalformed = Except.error (Exc.apiError
      { message := some "oops", code := none, details := none, hint := none })
    ∧ query_execute respErrMalformed = Except.error Exc.jsonDecodeError :=
  ⟨(malformed_body_split respOkMalformed rfl).1 (by decide),
   (malformed_body_split respErrMalformed rfl).2 (by decide)⟩

/-- Claim C6 counterexample: a request in maybe-single mode passes a header
set to `session.request` that still contains the `x-maybeSingle` marker. -/
theorem marker_header_forwarded_counterexample :
    is_maybe_single maybeReq.headers = true
    ∧ headerGet (sent_headers maybeReq) "x-maybeSingle" = some "true" :=
  ⟨rfl, rfl⟩

/-- Claim C6 amended: execute forwards the builder's headers unchanged, so
every maybe-single request sends the marker header (with a value lowercasing
to "true") to the HTTP client. -/
theorem marker_header_forwarded (b : PendingRequest)
    (h : is_maybe_single b.headers = true) :
    ∃ v, headerGet (sent_headers b) "x-maybeSingle" = some v
      ∧ strToLower v = "true" := by
  have hmark : maybe_single_marker b.headers = true := by
    have h' := h
    unfold is_maybe_single at h'
    exact (Bool.and_eq_true _ _).mp h' |>.2
  unfold maybe_single_marker at hmark
  unfold sent_headers
  cases hv : headerGet b.headers "x-maybeSingle" with
  | none => rw [hv] at hmark; exact absurd hmark (by simp)
  | some v =>
    refine ⟨v, rfl, ?_⟩
    rw [hv] at hmark
    simpa [beq_iff_eq] using hmark

/-- Claim C6 amended witness: the concrete maybe-single request forwards its
marker header. -/
theorem marker_header_forwarded_witness :
    ∃ v, headerGet (sent_headers maybeReq) "x-maybeSingle" = some v
      ∧ strToLower v = "true" :=
  marker_header_forwarded maybeReq (by decide)

/-- Claim C7: the 404 body carrying only a message yields an error whose
message is "not found" and whose code, details and hint are absent; in
general a field missing from the error body stays absent in the constructed
error. -/
theorem error_fields_absent :
    query_execute respNotFound = Except.error (Exc.apiError
      { message := some "not found", code := none, details := none, hint := none })
    ∧ (∀ j : Json, Json.get? j "code" = none → (APIError.fromJson j).code = none)
    ∧ (∀ j : Json, Json.get? j "details" = none → (APIError.fromJson j).details = none)
    ∧ (∀ j : Json, Json.get? j "hint" = none → (APIError.fromJson j).hint = none) := by
  refine ⟨rfl, ?_, ?_, ?_⟩ <;> (intro j h; simp [APIError.fromJson, strField, h])

/-- Claim C7 witness: a body with only a message leaves code, details and
hint absent. -/
theorem error_fields_absent_witness :
    (APIError.fromJson (Json.obj [("message", Json.str "not found")])).code = none
    ∧ (APIError.fromJson (Json.obj [("message", Json.str "not found")])).details = none
    ∧ (APIError.fromJson (Json.obj [("message", Json.str "not found")])).hint = none :=
  ⟨error_fields_absent.2.1 _ rfl, error_fields_absent.2.2.1 _ rfl,
   error_fields_absent.2.2.2 _ rfl⟩

/-- Claim C8: two `pre_delete` calls with count=exact and returning=minimal
produce identical method/params/headers/body tuples, both equal to the
explicit DELETE tuple, and the `delete` factory builds the same pending
request twice. -/
theorem pre_delete_deterministic :
    pre_delete (some CountMethod.exact) ReturnMethod.minimal
      = pre_delete (some CountMethod.exact) ReturnMethod.minimal
    ∧ pre_delete (some CountMethod.exact) ReturnMethod.minimal
      = ("DELETE", ([] : ParamsL),
         ([("Prefer", "count=exact,return=minimal")] : HeadersL), (none : Option Json))
    ∧ delete "tbl" (some CountMethod.exact) ReturnMethod.minimal
      = delete "tbl" (some CountMethod.exact) ReturnMethod.minimal :=
  ⟨rfl, rfl, rfl⟩

/-- Claim C9: consecutive inserts on fresh builders share no header state:
the upsert call's resolution token never appears in the following non-upsert
insert, whose headers equal those of any fresh non-upsert insert regardless
of the rows or of any earlier call. -/
theorem insert_fresh_headers (path : String) (rows : Json) :
    (insert path rows none ReturnMethod.representation false).headers
      = [("Prefer", "return=representation")]
    ∧ (insert path rows none ReturnMethod.representation true).headers
      = [("Prefer", "return=representation,resolution=merge-duplicates")] :=
  ⟨rfl, rfl⟩

/-- Claim C10: every header state that is not maybe-single — including
single-row mode without the marker — executes through the plain query
execution function. -/
theorem nonmaybe_plain_execution (hs : HeadersL) (r : HTTPResponse)
    (h : is_maybe_single hs = false) :
    factory_execute hs r = query_execute r := by
  simp [factory_execute, h]

/-- Claim C10 witness: single-row headers without the marker execute exactly
as the plain strategy does. -/
theorem nonmaybe_plain_execution_witness :
    factory_execute singleHeaders respEdge299 = query_execute respEdge299 :=
  nonmaybe_plain_execution singleHeaders respEdge299 (by decide)

end PostgrestPy
